import Mathlib

/-!
Verification model of `image_thumbnail_viewer.py` (imgsee).

The Python source is shallowly embedded: Python `int` values become `ℤ`,
Python `float` arithmetic becomes exact `ℚ` arithmetic (every float that
occurs in the zoom engine is a ratio or product of small integers, and the
concrete inputs used below are far from rounding boundaries), Python's
truncating `int(...)` conversion becomes `py_int`, and the Qt-owned pieces
(scroll-bar ranges, widget sizes) are modelled by their documented
semantics at the exact call sites where the source reads them.
-/

namespace ImgSee

/-- Source line 42: `ZOOM_MIN, ZOOM_MAX = 10, 500`. -/
def ZOOM_MIN : ℤ := 10

/-- Source line 42: `ZOOM_MAX = 500`. -/
def ZOOM_MAX : ℤ := 500

/-- Source line 43: `ZOOM_STEP = 10`. -/
def ZOOM_STEP : ℤ := 10

/-- Python's `int(x)` conversion on a real value: truncation toward zero
(floor for nonnegative arguments, ceiling for negative ones). -/
def py_int (q : ℚ) : ℤ := if 0 ≤ q then ⌊q⌋ else ⌈q⌉

/-- `load_image_view_zoom` (source lines 85-91): reads the persisted zoom
integer; returns `0` unchanged, and clamps every other value into
`[ZOOM_MIN, ZOOM_MAX]`.  (Note the code special-cases only `0`.) -/
def load_image_view_zoom (v : ℤ) : ℤ :=
  if v = 0 then 0 else max ZOOM_MIN (min ZOOM_MAX v)

/-- Geometry the zoom engine reads: the scroll-area viewport size
(`self.scroll.viewport().width()/height()`) and the original pixmap size
(`self._original.width()/height()`), all integer pixel counts. -/
structure Geometry where
  vpW : ℤ
  vpH : ℤ
  ow : ℤ
  oh : ℤ
deriving DecidableEq

/-- `_fit_width_scale` (source lines 385-392), in the image-loaded case:
`vp_w / ow` as real division, with the `ow <= 0` guard returning `1.0`. -/
def fit_width_scale (g : Geometry) : ℚ :=
  if g.ow ≤ 0 then 1 else (g.vpW : ℚ) / (g.ow : ℚ)

/-- `_fit_height_scale` (source lines 394-401), in the image-loaded case:
`vp_h / oh` as real division, with the `oh <= 0` guard returning `1.0`. -/
def fit_height_scale (g : Geometry) : ℚ :=
  if g.oh ≤ 0 then 1 else (g.vpH : ℚ) / (g.oh : ℚ)

/-- The `target_scale` selection of `_apply_zoom` (source lines 409-415):
zoom value `0` means fit width, `-1` means fit height, anything else is a
literal percentage `zoom_percent / 100.0`. -/
def target_scale (g : Geometry) (zp : ℤ) : ℚ :=
  if zp = 0 then fit_width_scale g
  else if zp = -1 then fit_height_scale g
  else (zp : ℚ) / 100

/-- `nw = max(1, int(ow * target_scale))` (source line 417). -/
def rendered_width (g : Geometry) (zp : ℤ) : ℤ :=
  max 1 (py_int ((g.ow : ℚ) * target_scale g zp))

/-- `nh = max(1, int(oh * target_scale))` (source line 418). -/
def rendered_height (g : Geometry) (zp : ℤ) : ℤ :=
  max 1 (py_int ((g.oh : ℚ) * target_scale g zp))

/-- `self.zoom_percent_display = max(ZOOM_MIN, min(ZOOM_MAX, int(target_scale * 100)))`
(source lines 421-422). -/
def zoom_percent_display (g : Geometry) (zp : ℤ) : ℤ :=
  max ZOOM_MIN (min ZOOM_MAX (py_int (target_scale g zp * 100)))

/-- `_zoom_in` (source lines 450-457), state transition on `zoom_percent`:
a fit mode is first frozen to `max(ZOOM_MIN, int(fit_scale * 100))`, then
the step is added with only an upper clamp `min(ZOOM_MAX, ...)`. -/
def zoom_in (g : Geometry) (zp : ℤ) : ℤ :=
  let zp1 : ℤ :=
    if zp = 0 then max ZOOM_MIN (py_int (fit_width_scale g * 100))
    else if zp = -1 then max ZOOM_MIN (py_int (fit_height_scale g * 100))
    else zp
  min ZOOM_MAX (zp1 + ZOOM_STEP)

/-- `_zoom_out` (source lines 459-466), state transition on `zoom_percent`:
a fit mode is first frozen to `max(ZOOM_MIN, int(fit_scale * 100))`, then
the step is subtracted with only a lower clamp `max(ZOOM_MIN, ...)`. -/
def zoom_out (g : Geometry) (zp : ℤ) : ℤ :=
  let zp1 : ℤ :=
    if zp = 0 then max ZOOM_MIN (py_int (fit_width_scale g * 100))
    else if zp = -1 then max ZOOM_MIN (py_int (fit_height_scale g * 100))
    else zp
  max ZOOM_MIN (zp1 - ZOOM_STEP)

/-- `_fit_width` (source lines 440-443): sets `zoom_percent` to `0`. -/
def set_fit_width (_zp : ℤ) : ℤ := 0

/-- `_fit_height` (source lines 445-448): sets `zoom_percent` to `-1`. -/
def set_fit_height (_zp : ℤ) : ℤ := -1

/-- `resizeEvent` (source lines 480-483): `_apply_zoom` is re-invoked on a
resize exactly when `zoom_percent == 0 or zoom_percent == -1`. -/
def resize_recomputes (zp : ℤ) : Bool := zp == 0 || zp == -1

/-- The engine state touched by `_apply_zoom` (source lines 403-438): the
stored mode `self.zoom_percent`, the display-only `self.zoom_percent_display`,
and the rendered pixmap dimensions (`scaled.width()/height()`, modelled by the
requested sizes `nw`/`nh` the code computes; actual pixmap scaling is the
external toolkit collaborator). -/
structure ViewerZoomState where
  zoom_percent : ℤ
  zoom_percent_display : ℤ
  rendered_w : ℤ
  rendered_h : ℤ
deriving DecidableEq

/-- `_apply_zoom` as a state transformer (source lines 403-438), in the
image-loaded case: it reads `self.zoom_percent` and never assigns it; it
assigns `self.zoom_percent_display` and the rendered pixmap/label size. -/
def apply_zoom (g : Geometry) (s : ViewerZoomState) : ViewerZoomState :=
  { zoom_percent := s.zoom_percent
    zoom_percent_display := ImgSee.zoom_percent_display g s.zoom_percent
    rendered_w := rendered_width g s.zoom_percent
    rendered_h := rendered_height g s.zoom_percent }

/-- `IMAGE_EXTENSIONS` (source line 30), as a list of extension strings. -/
def IMAGE_EXTENSIONS : List String :=
  [".jpg", ".jpeg", ".png", ".gif", ".bmp", ".webp", ".ico", ".tiff", ".tif"]

/-- Index of the last '.' in a name (Python `str.rfind('.')`): `-1` when
there is no dot. -/
def rfind_dot : List Char → ℤ
  | [] => -1
  | c :: rest =>
      let r := rfind_dot rest
      if 0 ≤ r then r + 1 else if c = '.' then 0 else -1

/-- The final path component (`pathlib.PurePath.name`): the part after the
last separator.  Paths produced by `iterdir` never end in a separator. -/
def last_component (cs : List Char) : List Char :=
  cs.foldl (fun acc c => if c = '/' then [] else acc ++ [c]) []

/-- `pathlib.PurePath.suffix`: the extension of the final component,
`name[i:]` for `i = name.rfind('.')` when `0 < i < len(name) - 1`, else
the empty string. -/
def path_suffix (p : String) : String :=
  let name := last_component p.toList
  let i := rfind_dot name
  if 0 < i ∧ i < (name.length : ℤ) - 1 then String.mk (name.drop i.toNat) else ""

/-- Python `str.lower()` on ASCII extension text. -/
def str_lower (s : String) : String := String.mk (s.toList.map Char.toLower)

/-- One entry of a directory listing: its full path and whether it is a
regular file (`Path.is_file()`).  A directory snapshot is the ordered list
of entries `Path.iterdir()` yields; a real directory yields pairwise
distinct paths. -/
structure DirEntry where
  path : String
  isFile : Bool
deriving DecidableEq

/-- The filter of `get_image_files` (source lines 104-107):
`p.is_file() and p.suffix.lower() in IMAGE_EXTENSIONS`. -/
def is_image_file (e : DirEntry) : Bool :=
  e.isFile && IMAGE_EXTENSIONS.contains (str_lower (path_suffix e.path))

/-- `get_image_files` (source lines 100-107): `none` models a path that is
not a directory (`not folder.is_dir()` returns `[]`); otherwise the
`iterdir` listing is filtered.  Note the code does NOT sort here. -/
def get_image_files (folder : Option (List DirEntry)) : List String :=
  match folder with
  | none => []
  | some entries => (entries.filter is_image_file).map DirEntry.path

/-- The spec's `list_images` as the program realizes it: `get_image_files`
followed by the `sorted(images)` at source line 711 in `load_thumbnails`
(Python `sorted` with the default path order: ascending, and for a total
order the sorted permutation of a duplicate-free list is unique, so any
sorting algorithm gives the same output; insertion sort is used here). -/
def list_images (folder : Option (List DirEntry)) : List String :=
  List.insertionSort (fun a b => a ≤ b) (get_image_files folder)

/-- Navigation state of `ImageViewerDialog`: `self.paths` and `self.index`. -/
structure NavState where
  paths : List String
  index : ℤ
deriving DecidableEq

/-- `_go_prev` (source lines 468-472): no-op when the list is empty or
`self.index <= 0`, else decrement. -/
def go_prev (s : NavState) : NavState :=
  if s.paths = [] ∨ s.index ≤ 0 then s else { s with index := s.index - 1 }

/-- `_go_next` (source lines 474-478): no-op when the list is empty or
`self.index >= len(self.paths) - 1`, else increment. -/
def go_next (s : NavState) : NavState :=
  if s.paths = [] ∨ (s.paths.length : ℤ) - 1 ≤ s.index then s
  else { s with index := s.index + 1 }

/-- Drag bookkeeping recorded on gesture start (source lines 320-325):
the press position and the scroll-bar values at that moment. -/
structure DragState where
  start_x : ℤ
  start_y : ℤ
  start_h : ℤ
  start_v : ℤ
deriving DecidableEq

/-- A Qt scroll bar of a fixed-size-widget scroll area has `minimum() = 0`
and `maximum() = max(0, content_extent - viewport_extent)`; the code sizes
the content label to the rendered dimensions (source line 430). -/
def scrollbar_max (content viewport : ℤ) : ℤ := max 0 (content - viewport)

/-- The `MouseMove` branch of `eventFilter` while dragging (source lines
331-341): `new = start_offset - delta`, then `setValue(max(minimum,
min(maximum, new)))` on each axis. -/
def drag_move (d : DragState) (px py renderedW renderedH vpW vpH : ℤ) : ℤ × ℤ :=
  let dx := px - d.start_x
  let dy := py - d.start_y
  let new_h := d.start_h - dx
  let new_v := d.start_v - dy
  (max 0 (min (scrollbar_max renderedW vpW) new_h),
   max 0 (min (scrollbar_max renderedH vpH) new_v))

/-- Modelled from the spec: "resolve it to its current equivalent
percentage (scale × 100, rounded to nearest integer)" — rounding to the
nearest integer (no tie is exercised below). -/
def spec_round (q : ℚ) : ℤ := ⌊q + 1/2⌋

/-- Modelled from the spec: the zoom-in claim's resolve-then-step formula
for a fit mode, `round(scale * 100) + 10` clamped into `[10, 500]`. -/
def spec_zoom_in_from_fit (g : Geometry) (zp : ℤ) : ℤ :=
  max ZOOM_MIN (min ZOOM_MAX (spec_round (target_scale g zp * 100) + ZOOM_STEP))

/-- Modelled from the spec: "rendered dimensions = round(image dimension ×
scale), floored at 1". -/
def spec_rendered_width (g : Geometry) (zp : ℤ) : ℤ :=
  max 1 (spec_round ((g.ow : ℚ) * target_scale g zp))

/-- A concrete directory snapshot: unsorted, with a non-image text file, a
subdirectory, and mixed-case extensions. -/
def demo_folder : List DirEntry :=
  [⟨"/pics/b.PNG", true⟩, ⟨"/pics/a.jpg", true⟩, ⟨"/pics/readme.txt", true⟩,
   ⟨"/pics/sub", false⟩, ⟨"/pics/c.tIf", true⟩]

end ImgSee

namespace ImgSee

theorem py_int_nonpos {q : ℚ} (h : q ≤ 0) : py_int q ≤ 0 := by
  unfold py_int
  split
  · exact Int.floor_nonpos h
  · exact Int.ceil_le.mpr (by exact_mod_cast h)

/-- C1: the claim says the three sentinel values 0, -1, -2 are returned
unchanged by the settings read.  Evaluating `load_image_view_zoom` shows
only 0 is special-cased: the stored value -1 (which `_fit_height` itself
persists) and -2 both come back clamped to 10, while a non-sentinel 700 is
clamped to 500 as the claim says. -/
theorem load_image_view_zoom_clamps_fit_height_sentinel :
    load_image_view_zoom 0 = 0 ∧ load_image_view_zoom (-1) = 10 ∧
    load_image_view_zoom (-2) = 10 ∧ load_image_view_zoom 700 = 500 ∧
    load_image_view_zoom 17 = 17 ∧
    load_image_view_zoom (-1) ≠ -1 ∧ load_image_view_zoom (-2) ≠ -2 := by
  decide

/-- C10: `_apply_zoom` never changes the stored mode `zoom_percent`, it is
idempotent on the engine state in fixed geometry, and the display-only
percentage it writes is clamped into `[ZOOM_MIN, ZOOM_MAX]`. -/
theorem apply_zoom_preserves_mode_and_idempotent (g : Geometry) (s : ViewerZoomState) :
    (apply_zoom g s).zoom_percent = s.zoom_percent ∧
    apply_zoom g (apply_zoom g s) = apply_zoom g s ∧
    ZOOM_MIN ≤ (apply_zoom g s).zoom_percent_display ∧
    (apply_zoom g s).zoom_percent_display ≤ ZOOM_MAX := by
  refine ⟨rfl, rfl, ?_, ?_⟩ <;>
  · simp only [apply_zoom, ImgSee.zoom_percent_display, ZOOM_MIN, ZOOM_MAX]
    omega

/-- C8: a viewport resize re-invokes `_apply_zoom` exactly when the active
mode is fit-width (0) or fit-height (-1); in any other mode the rendered
dimensions do not depend on the viewport, so a resize leaves them
unchanged. -/
theorem resize_recompute_iff_fit_mode (zp : ℤ) :
    (resize_recomputes zp = true ↔ zp = 0 ∨ zp = -1) ∧
    (zp ≠ 0 → zp ≠ -1 → ∀ g g' : Geometry, g.ow = g'.ow → g.oh = g'.oh →
      rendered_width g zp = rendered_width g' zp ∧
      rendered_height g zp = rendered_height g' zp) := by
  constructor
  · simp [resize_recomputes]
  · intro h0 h1 g g' how hoh
    constructor <;> simp [rendered_width, rendered_height, target_scale, h0, h1, how, hoh]

theorem resize_recompute_iff_fit_mode_witness :
    resize_recomputes 0 = true ∧ resize_recomputes 100 = false ∧
    rendered_width ⟨800, 600, 40, 30⟩ 100 = rendered_width ⟨333, 222, 40, 30⟩ 100 := by
  refine ⟨by decide, by decide, ?_⟩
  exact ((resize_recompute_iff_fit_mode 100).2 (by decide) (by decide)
    ⟨800, 600, 40, 30⟩ ⟨333, 222, 40, 30⟩ rfl rfl).1

end ImgSee

namespace ImgSee

/-- C2 counterexample: the claim resolves a fit mode by rounding
`scale * 100` to the *nearest* integer before stepping.  With viewport
width 1000 and image width 600 the live fit-width scale is 5/3
(166.67%): one `zoom_in` in the code yields 176 (truncation), while the
claimed round-to-nearest resolve-then-step formula yields 177. -/
theorem zoom_in_truncates_not_rounds :
    zoom_in ⟨1000, 700, 600, 400⟩ 0 = 176 ∧
    spec_zoom_in_from_fit ⟨1000, 700, 600, 400⟩ 0 = 177 ∧
    zoom_in ⟨1000, 700, 600, 400⟩ 0 ≠ spec_zoom_in_from_fit ⟨1000, 700, 600, 400⟩ 0 := by
  refine ⟨?_, ?_, ?_⟩ <;>
    norm_num [zoom_in, spec_zoom_in_from_fit, spec_round, target_scale,
      fit_width_scale, py_int, ZOOM_MIN, ZOOM_MAX, ZOOM_STEP]

theorem zoom_step_bounds (A : ℤ) :
    20 ≤ min ZOOM_MAX (max ZOOM_MIN A + ZOOM_STEP) ∧
    min ZOOM_MAX (max ZOOM_MIN A + ZOOM_STEP) ≤ ZOOM_MAX ∧
    ZOOM_MIN ≤ max ZOOM_MIN (max ZOOM_MIN A - ZOOM_STEP) := by
  simp only [ZOOM_MIN, ZOOM_MAX, ZOOM_STEP]
  omega

/-- C2 (amended): a `zoom_in`/`zoom_out` in a fit mode first freezes the
mode to `max(10, int(live scale * 100))` — truncation toward zero floored
at `ZOOM_MIN`, not round-to-nearest — switches to that `Percent` value,
then adds the step clamped above at 500 (`zoom_in`) or subtracts it
clamped below at 10 (`zoom_out`); the result is always a `Percent` state
(at least 10, never the fit sentinels 0 or -1). -/
theorem zoom_step_freezes_fit_by_truncation (g : Geometry) (zp : ℤ)
    (h : zp = 0 ∨ zp = -1) :
    zoom_in g zp = min ZOOM_MAX (max ZOOM_MIN (py_int (target_scale g zp * 100)) + ZOOM_STEP) ∧
    zoom_out g zp = max ZOOM_MIN (max ZOOM_MIN (py_int (target_scale g zp * 100)) - ZOOM_STEP) ∧
    20 ≤ zoom_in g zp ∧ zoom_in g zp ≤ ZOOM_MAX ∧ ZOOM_MIN ≤ zoom_out g zp := by
  rcases h with h | h <;> subst h <;>
    exact ⟨rfl, rfl, (zoom_step_bounds _).1, (zoom_step_bounds _).2.1, (zoom_step_bounds _).2.2⟩

theorem zoom_step_freezes_fit_by_truncation_witness :
    ((0 : ℤ) = 0 ∨ (0 : ℤ) = -1) ∧
    zoom_in ⟨1000, 700, 500, 400⟩ 0 = 210 ∧
    zoom_out ⟨1000, 700, 500, 400⟩ 0 = 190 := by
  refine ⟨Or.inl rfl, ?_, ?_⟩
  · have h := (zoom_step_freezes_fit_by_truncation ⟨1000, 700, 500, 400⟩ 0 (Or.inl rfl)).1
    rw [h]
    norm_num [target_scale, fit_width_scale, py_int, ZOOM_MIN, ZOOM_MAX, ZOOM_STEP]
  · have h := (zoom_step_freezes_fit_by_truncation ⟨1000, 700, 500, 400⟩ 0 (Or.inl rfl)).2.1
    rw [h]
    norm_num [target_scale, fit_width_scale, py_int, ZOOM_MIN, ZOOM_MAX, ZOOM_STEP]

/-- C3: the monotonicity facts of the claim hold (ten `zoom_in` from
Percent 100 give 200; ten `zoom_out` give 10 and an eleventh stays at 10),
but the claimed invariant `Percent p ∈ [10,500]` after every operation is
violated: `_zoom_out` from fit-width with viewport width 1000 and image
width 100 freezes the fit at 1000% and clamps only from below, leaving
`zoom_percent = 990 > ZOOM_MAX`. -/
theorem zoom_out_escapes_zoom_max :
    (fun p => zoom_in ⟨1000, 700, 100, 100⟩ p)^[10] 100 = 200 ∧
    (fun p => zoom_out ⟨1000, 700, 100, 100⟩ p)^[10] 100 = 10 ∧
    (fun p => zoom_out ⟨1000, 700, 100, 100⟩ p)^[11] 100 = 10 ∧
    zoom_out ⟨1000, 700, 100, 100⟩ 0 = 990 ∧
    ZOOM_MAX < zoom_out ⟨1000, 700, 100, 100⟩ 0 := by
  refine ⟨?_, ?_, ?_, ?_, ?_⟩
  · simp only [Function.iterate_succ, Function.iterate_zero, Function.comp_apply, id_eq]
    norm_num [zoom_in, ZOOM_MIN, ZOOM_MAX, ZOOM_STEP]
  · simp only [Function.iterate_succ, Function.iterate_zero, Function.comp_apply, id_eq]
    norm_num [zoom_out, ZOOM_MIN, ZOOM_MAX, ZOOM_STEP]
  · simp only [Function.iterate_succ, Function.iterate_zero, Function.comp_apply, id_eq]
    norm_num [zoom_out, ZOOM_MIN, ZOOM_MAX, ZOOM_STEP]
  · norm_num [zoom_out, fit_width_scale, py_int, ZOOM_MIN, ZOOM_MAX, ZOOM_STEP]
  · norm_num [zoom_out, fit_width_scale, py_int, ZOOM_MIN, ZOOM_MAX, ZOOM_STEP]

/-- C4 counterexample: the claim describes an `Original` mode (stored
sentinel -2 per the spec's settings encoding) with scale 1.0 whose
`zoom_in`/`zoom_out` seed Percent 110/90.  The code has no such mode: at
zoom value -2 it computes scale -2/100 = -(1/50), and `zoom_in` yields
Percent 8, `zoom_out` Percent 10. -/
theorem no_original_mode_counterexample :
    zoom_in ⟨900, 700, 500, 400⟩ (-2) = 8 ∧
    zoom_in ⟨900, 700, 500, 400⟩ (-2) ≠ 110 ∧
    zoom_out ⟨900, 700, 500, 400⟩ (-2) = 10 ∧
    zoom_out ⟨900, 700, 500, 400⟩ (-2) ≠ 90 ∧
    target_scale ⟨900, 700, 500, 400⟩ (-2) = -(1/50) ∧
    target_scale ⟨900, 700, 500, 400⟩ (-2) ≠ 1 := by
  refine ⟨?_, ?_, ?_, ?_, ?_, ?_⟩ <;>
    norm_num [zoom_in, zoom_out, target_scale, ZOOM_MIN, ZOOM_MAX, ZOOM_STEP]

/-- C4 (amended): the code implements no `Original` mode.  A stored zoom
value of -2 (the spec's `Original` encoding) is treated as the literal
percentage -2: recompute yields scale -(1/50) and rendered dimensions
floored to 1 x 1, `zoom_in` yields Percent 8 (the unclamped -2 plus the
step), and `zoom_out` yields Percent 10. -/
theorem stored_minus_two_behaves_as_literal_percent (g : Geometry) :
    zoom_in g (-2) = 8 ∧ zoom_out g (-2) = 10 ∧
    target_scale g (-2) = -(1/50) ∧
    (0 < g.ow → rendered_width g (-2) = 1) ∧
    (0 < g.oh → rendered_height g (-2) = 1) := by
  have hts : target_scale g (-2) = -(1/50) := by norm_num [target_scale]
  refine ⟨by norm_num [zoom_in, ZOOM_MIN, ZOOM_MAX, ZOOM_STEP],
          by norm_num [zoom_out, ZOOM_MIN, ZOOM_MAX, ZOOM_STEP], hts, ?_, ?_⟩
  · intro h
    have hq : (g.ow : ℚ) * target_scale g (-2) ≤ 0 := by
      rw [hts]
      exact mul_nonpos_iff.mpr (Or.inl ⟨by exact_mod_cast h.le, by norm_num⟩)
    have hnp := py_int_nonpos hq
    simp only [rendered_width]
    omega
  · intro h
    have hq : (g.oh : ℚ) * target_scale g (-2) ≤ 0 := by
      rw [hts]
      exact mul_nonpos_iff.mpr (Or.inl ⟨by exact_mod_cast h.le, by norm_num⟩)
    have hnp := py_int_nonpos hq
    simp only [rendered_height]
    omega

theorem stored_minus_two_behaves_as_literal_percent_witness :
    (0 : ℤ) < 500 ∧ (0 : ℤ) < 400 ∧
    rendered_width ⟨900, 700, 500, 400⟩ (-2) = 1 ∧
    rendered_height ⟨900, 700, 500, 400⟩ (-2) = 1 := by
  have h := stored_minus_two_behaves_as_literal_percent ⟨900, 700, 500, 400⟩
  exact ⟨by decide, by decide, h.2.2.2.1 (by decide), h.2.2.2.2 (by decide)⟩

end ImgSee

namespace ImgSee

/-- C5: the image listing the program navigates (the `sorted` listing built
in `load_thumbnails` from `get_image_files`) is ascending in the path
order, duplicate-free whenever the directory's entries have pairwise
distinct paths (as a real directory guarantees), and is a pure function of
the directory snapshot, so two calls over an unchanged filesystem agree. -/
theorem list_images_sorted_nodup_deterministic (folder : Option (List DirEntry))
    (h : ∀ es, folder = some es → (es.map DirEntry.path).Nodup) :
    (list_images folder).Sorted (fun a b => a ≤ b) ∧
    (list_images folder).Nodup ∧
    list_images folder = list_images folder := by
  have hn : (get_image_files folder).Nodup := by
    cases folder with
    | none => simp [get_image_files]
    | some es =>
        have h1 := h es rfl
        have h2 : List.Sublist ((es.filter is_image_file).map DirEntry.path)
            (es.map DirEntry.path) := (List.filter_sublist es).map DirEntry.path
        exact h2.nodup h1
  unfold list_images
  exact ⟨List.sorted_insertionSort _ _,
    (List.perm_insertionSort _ _).nodup_iff.mpr hn, rfl⟩

theorem list_images_sorted_nodup_deterministic_witness :
    (demo_folder.map DirEntry.path).Nodup ∧
    get_image_files (some demo_folder) = ["/pics/b.PNG", "/pics/a.jpg", "/pics/c.tIf"] ∧
    (list_images (some demo_folder)).Sorted (fun a b => a ≤ b) ∧
    (list_images (some demo_folder)).Nodup := by
  have h := list_images_sorted_nodup_deterministic (some demo_folder)
    (fun es hes => by cases hes; decide)
  exact ⟨by decide, by decide, h.1, h.2.1⟩

/-- C6 counterexample: the claim computes rendered dimensions by rounding
`image dimension * scale` to the nearest integer (floored at 1).  For a
9-pixel-wide image at Percent 30 the code computes `int(9 * 0.3) = 2`
(truncation), while the claimed rounding formula gives 3. -/
theorem rendered_dims_truncate_not_round :
    rendered_width ⟨800, 600, 9, 9⟩ 30 = 2 ∧
    spec_rendered_width ⟨800, 600, 9, 9⟩ 30 = 3 ∧
    rendered_width ⟨800, 600, 9, 9⟩ 30 ≠ spec_rendered_width ⟨800, 600, 9, 9⟩ 30 := by
  refine ⟨?_, ?_, ?_⟩ <;>
    norm_num [rendered_width, spec_rendered_width, spec_round, target_scale, py_int]

/-- C6 (amended): with positive image and viewport dimensions, recompute
yields scale `viewport.width / image.width` under fit-width (0),
`viewport.height / image.height` under fit-height (-1), exactly `p / 100`
under Percent p for every p in [10, 500]; both rendered dimensions apply
the same uniform scale and equal the *truncation* (Python `int`, not
round-to-nearest) of `image dimension * scale`, floored at 1, hence are
always at least 1. -/
theorem recompute_scales_and_rendered_dims (g : Geometry)
    (hw : 0 < g.ow) (hh : 0 < g.oh) :
    target_scale g 0 = (g.vpW : ℚ) / (g.ow : ℚ) ∧
    target_scale g (-1) = (g.vpH : ℚ) / (g.oh : ℚ) ∧
    (∀ p : ℤ, 10 ≤ p → p ≤ 500 → target_scale g p = (p : ℚ) / 100) ∧
    (∀ zp : ℤ, rendered_width g zp = max 1 (py_int ((g.ow : ℚ) * target_scale g zp)) ∧
               rendered_height g zp = max 1 (py_int ((g.oh : ℚ) * target_scale g zp)) ∧
               1 ≤ rendered_width g zp ∧ 1 ≤ rendered_height g zp) := by
  refine ⟨?_, ?_, ?_, ?_⟩
  · simp [target_scale, fit_width_scale, not_le.mpr hw]
  · simp [target_scale, fit_height_scale, not_le.mpr hh]
  · intro p hp1 hp2
    have h0 : p ≠ 0 := by omega
    have h1 : p ≠ -1 := by omega
    simp [target_scale, h0, h1]
  · intro zp
    exact ⟨rfl, rfl, le_max_left 1 _, le_max_left 1 _⟩

theorem recompute_scales_and_rendered_dims_witness :
    (0 : ℤ) < 400 ∧ (0 : ℤ) < 200 ∧
    target_scale ⟨1000, 800, 400, 200⟩ 0 = 5/2 ∧
    target_scale ⟨1000, 800, 400, 200⟩ 50 = 1/2 := by
  have h := recompute_scales_and_rendered_dims ⟨1000, 800, 400, 200⟩ (by decide) (by decide)
  refine ⟨by decide, by decide, ?_, ?_⟩
  · rw [h.1]
    norm_num
  · rw [h.2.2.1 50 (by decide) (by decide)]
    norm_num

/-- C7: on a non-empty path list with the index in range, `_go_prev` at
index 0 and `_go_next` at the last index are no-ops; every other
`_go_prev`/`_go_next` changes the index by exactly one and keeps the path
list; and both operations preserve `0 <= index < len(paths)`. -/
theorem navigation_boundaries_and_invariant (s : NavState)
    (hne : s.paths ≠ []) (h0 : 0 ≤ s.index) (hlt : s.index < (s.paths.length : ℤ)) :
    (s.index = 0 → go_prev s = s) ∧
    (s.index = (s.paths.length : ℤ) - 1 → go_next s = s) ∧
    (0 < s.index → (go_prev s).index = s.index - 1 ∧ (go_prev s).paths = s.paths) ∧
    (s.index < (s.paths.length : ℤ) - 1 →
      (go_next s).index = s.index + 1 ∧ (go_next s).paths = s.paths) ∧
    (0 ≤ (go_prev s).index ∧ (go_prev s).index < (s.paths.length : ℤ)) ∧
    (0 ≤ (go_next s).index ∧ (go_next s).index < (s.paths.length : ℤ)) := by
  refine ⟨?_, ?_, ?_, ?_, ?_, ?_⟩
  · intro h
    rw [go_prev, if_pos (Or.inr h.le)]
  · intro h
    rw [go_next, if_pos (Or.inr (by omega))]
  · intro h
    rw [go_prev, if_neg (not_or.mpr ⟨hne, by omega⟩)]
    exact ⟨rfl, rfl⟩
  · intro h
    rw [go_next, if_neg (not_or.mpr ⟨hne, by omega⟩)]
    exact ⟨rfl, rfl⟩
  · by_cases hc : s.paths = [] ∨ s.index ≤ 0
    · rw [go_prev, if_pos hc]
      exact ⟨h0, hlt⟩
    · rw [go_prev, if_neg hc]
      have := (not_or.mp hc).2
      constructor <;> simp <;> omega
  · by_cases hc : s.paths = [] ∨ (s.paths.length : ℤ) - 1 ≤ s.index
    · rw [go_next, if_pos hc]
      exact ⟨h0, hlt⟩
    · rw [go_next, if_neg hc]
      have := (not_or.mp hc).2
      constructor <;> simp <;> omega

theorem navigation_boundaries_and_invariant_witness :
    (go_prev ⟨["a", "b", "c"], 1⟩).index = 0 ∧
    (go_next ⟨["a", "b", "c"], 1⟩).index = 2 ∧
    go_prev ⟨["a", "b", "c"], 0⟩ = ⟨["a", "b", "c"], 0⟩ ∧
    go_next ⟨["a", "b", "c"], 2⟩ = ⟨["a", "b", "c"], 2⟩ := by
  have h1 := navigation_boundaries_and_invariant ⟨["a", "b", "c"], 1⟩
    (by decide) (by decide) (by decide)
  have h2 := navigation_boundaries_and_invariant ⟨["a", "b", "c"], 0⟩
    (by decide) (by decide) (by decide)
  have h3 := navigation_boundaries_and_invariant ⟨["a", "b", "c"], 2⟩
    (by decide) (by decide) (by decide)
  refine ⟨?_, ?_, h2.1 rfl, h3.2.1 (by decide)⟩
  · have hp := (h1.2.2.1 (by decide)).1
    rw [hp]
    decide
  · have hp := (h1.2.2.2.1 (by decide)).1
    rw [hp]
    decide

/-- C9: during a drag, each move sets the scroll offsets to the
gesture-start offsets minus the pointer delta, clamped on each axis into
`[0, rendered - viewport]` when the rendered image exceeds the viewport on
that axis, and to 0 when it does not; the result always lies in the
scroll-bar range. -/
theorem drag_move_clamps_offsets (d : DragState) (px py rdW rdH vpW vpH : ℤ) :
    (vpW < rdW → (drag_move d px py rdW rdH vpW vpH).1 =
        max 0 (min (rdW - vpW) (d.start_h - (px - d.start_x)))) ∧
    (rdW ≤ vpW → (drag_move d px py rdW rdH vpW vpH).1 = 0) ∧
    (vpH < rdH → (drag_move d px py rdW rdH vpW vpH).2 =
        max 0 (min (rdH - vpH) (d.start_v - (py - d.start_y)))) ∧
    (rdH ≤ vpH → (drag_move d px py rdW rdH vpW vpH).2 = 0) ∧
    0 ≤ (drag_move d px py rdW rdH vpW vpH).1 ∧
    (drag_move d px py rdW rdH vpW vpH).1 ≤ scrollbar_max rdW vpW ∧
    0 ≤ (drag_move d px py rdW rdH vpW vpH).2 ∧
    (drag_move d px py rdW rdH vpW vpH).2 ≤ scrollbar_max rdH vpH := by
  simp only [drag_move, scrollbar_max]
  refine ⟨fun h => by omega, fun h => by omega, fun h => by omega, fun h => by omega,
    by omega, by omega, by omega, by omega⟩

theorem drag_move_clamps_offsets_witness :
    (100 : ℤ) < 300 ∧ (100 : ℤ) ≤ 150 ∧
    (drag_move ⟨5, 5, 20, 30⟩ 8 2 300 100 100 150).1 = 17 ∧
    (drag_move ⟨5, 5, 20, 30⟩ 8 2 300 100 100 150).2 = 0 := by
  have h := drag_move_clamps_offsets ⟨5, 5, 20, 30⟩ 8 2 300 100 100 150
  refine ⟨by decide, by decide, ?_, h.2.2.2.1 (by decide)⟩
  have hp := h.1 (by decide)
  rw [hp]
  decide

end ImgSee
